import Mathlib

/-!
Shallow embedding of the document-store engine of the booktrack repository
(the Collection and Database classes of the database abstraction layer).
Documents are JavaScript objects, modelled as association lists from field
names to values; JavaScript strict equality on the primitive values stored
by the engine is modelled as structural equality of the Value type.
Time (Date.now and new Date) is passed explicitly as a millisecond count,
and the Math.random double is passed explicitly as a 52-bit numerator m,
standing for the value m divided by 16 to the 13th power.
-/

/-- Primitive JavaScript values stored in documents: strings, integers,
Date timestamps (milliseconds) and booleans. -/
inductive Value where
  | str : String → Value
  | num : Int → Value
  | date : Nat → Value
  | bool : Bool → Value
deriving DecidableEq, Repr

/-- A JavaScript object: an association list from field name to value.
Lookup takes the first binding, matching unique-key JavaScript objects. -/
abbrev Obj := List (String × Value)

/-- Field access on an object, doc of bracket k in the source; absent
fields read as an absent result, the undefined of JavaScript. -/
def getField : Obj → String → Option Value
  | [], _ => none
  | (k1, v) :: rest, k => if k1 == k then some v else getField rest k

/-- The JavaScript object spread of two objects: keys of a keep their
position with values overridden by b, keys only in b are appended. -/
def spread2 (a b : Obj) : Obj :=
  (a.map fun p =>
    match getField b p.1 with
    | some v => (p.1, v)
    | none => p) ++
  b.filter fun p => (getField a p.1).isNone

/-- Filter matching of Collection.find, updateOne, updateMany, deleteOne,
deleteMany: every entry of the query must equal the document field by
strict equality. -/
def matchesFilter (query : Obj) (d : Obj) : Bool :=
  query.all fun kv => getField d kv.1 == some kv.2

/-- Comparison of two field values by the JavaScript less-than used in the
sort comparator of Collection.find; values of distinct runtime types and
absent fields compare as not-less (as NaN comparisons do). -/
def valLt : Option Value → Option Value → Bool
  | some (Value.str a), some (Value.str b) => a < b
  | some (Value.num a), some (Value.num b) => a < b
  | some (Value.date a), some (Value.date b) => a < b
  | some (Value.bool a), some (Value.bool b) => !a && b
  | _, _ => false

/-- The sort comparator of Collection.find over the ordered field and
direction pairs of options.sort; direction is 1 or -1 as in the source. -/
def cmpBySort : List (String × Int) → Obj → Obj → Int
  | [], _, _ => 0
  | (field, dir) :: rest, a, b =>
    let aVal := getField a field
    let bVal := getField b field
    if valLt aVal bVal then (if dir == 1 then -1 else 1)
    else if valLt bVal aVal then (if dir == 1 then 1 else -1)
    else cmpBySort rest a b

/-- Stable insertion of a document into a list sorted by the comparator. -/
def insertByCmp (cmp : Obj → Obj → Int) (a : Obj) : List Obj → List Obj
  | [] => [a]
  | b :: l => if cmp a b ≤ 0 then a :: b :: l else b :: insertByCmp cmp a l

/-- Stable sort by a comparator, modelling Array.prototype.sort, which is
stable and agrees with insertion sort for a consistent comparator. -/
def sortByCmp (cmp : Obj → Obj → Int) : List Obj → List Obj
  | [] => []
  | a :: l => insertByCmp cmp a (sortByCmp cmp l)

/-- Collection.find: filter by equality conjunction when the query is
non-empty, then sort when options.sort is present, then slice for skip
and limit; a skip or limit of 0 is falsy in the source conditionals and
leaves the list unchanged. -/
def find (query : Obj) (sortO : Option (List (String × Int)))
    (skipO limitO : Option Nat) (docs : List Obj) : List Obj :=
  let d1 := if query.length == 0 then docs
            else docs.filter fun d => matchesFilter query d
  let d2 := match sortO with
            | some s => sortByCmp (cmpBySort s) d1
            | none => d1
  let d3 := match skipO with
            | some n => if n != 0 then d2.drop n else d2
            | none => d2
  match limitO with
  | some n => if n != 0 then d3.take n else d3
  | none => d3

/-- Collection.countDocuments: find with the query and default options,
then take the length. -/
def countDocuments (query : Obj) (docs : List Obj) : Nat :=
  (find query none none none docs).length

/-- The thirteen hexadecimal digits of the 52-bit fraction numerator m,
most significant first; the double produced by Math.random is m divided
by 16 to the 13th power. -/
def fullFracDigits (m : Nat) : List Char :=
  (List.range 13).map fun i => Nat.digitChar (m / 16 ^ (12 - i) % 16)

/-- Remove trailing zero digits, as Number.prototype.toString does when
printing the exact hexadecimal expansion of a binary fraction. -/
def dropTrailingZeros (l : List Char) : List Char :=
  (l.reverse.dropWhile fun c => c == '0').reverse

/-- The character list of Math.random value m over 16 to the 13th, as
printed by toString with radix 16: the digit 0 for zero, otherwise the
characters 0 and dot followed by the trimmed fraction digits. -/
def randomHexChars (m : Nat) : List Char :=
  if m == 0 then ['0'] else '0' :: '.' :: dropTrailingZeros (fullFracDigits m)

/-- JavaScript String.prototype.substring with clamping, on character
lists. -/
def jsSubstring (l : List Char) (a b : Nat) : List Char :=
  (l.drop a).take (b - a)

/-- The random part of Collection.generateId: substring from index 2 to
index 14 of the radix-16 rendering of the Math.random double. -/
def randSuffix (m : Nat) : List Char :=
  jsSubstring (randomHexChars m) 2 14

/-- Collection.generateId: the radix-16 rendering of the timestamp in
whole seconds, concatenated with the random suffix. -/
def generateId (sec m : Nat) : List Char :=
  Nat.toDigits 16 sec ++ randSuffix m

/-- Collection.insertOne: stamp the caller document with a generated id
and creation and update timestamps, append it to the collection, return
the finished document together with the collection to be persisted.
nowMs is the current time in milliseconds, m the Math.random numerator. -/
def insertOne (dc : Obj) (nowMs m : Nat) (docs : List Obj) : Obj × List Obj :=
  let nd := spread2 dc
    [("_id", Value.str (generateId (nowMs / 1000) m).asString),
     ("createdAt", Value.date nowMs),
     ("updatedAt", Value.date nowMs)]
  (nd, docs ++ [nd])

/-- The merged document built by updateOne and updateMany on a match:
the object literal spreading the document, then the update, then a
refreshed updatedAt. -/
def applyUpdate (update : Obj) (nowMs : Nat) (d : Obj) : Obj :=
  spread2 (spread2 d update) [("updatedAt", Value.date nowMs)]

/-- The document synthesized by the upsert branch of updateOne and
updateMany: the query fields, then the update fields, then a fresh id
and fresh timestamps. -/
def upsertDoc (query update : Obj) (idStr : String) (nowMs : Nat) : Obj :=
  spread2 (spread2 query update)
    [("_id", Value.str idStr),
     ("createdAt", Value.date nowMs),
     ("updatedAt", Value.date nowMs)]

/-- The scanning loop of Collection.updateOne: replace the first matching
document by the merged document and stop; the two counters are the
matchedCount and modifiedCount of the source, both set to 1 on a match. -/
def updateOneScan (query update : Obj) (nowMs : Nat) :
    List Obj → List Obj × Nat × Nat
  | [] => ([], 0, 0)
  | d :: ds =>
    if matchesFilter query d then (applyUpdate update nowMs d :: ds, 1, 1)
    else
      let r := updateOneScan query update nowMs ds
      (d :: r.1, r.2.1, r.2.2)

/-- Collection.updateOne: scan for the first match; when no document
matched and options.upsert is set, append the synthesized document and
report both counts as 1. -/
def updateOne (query update : Obj) (upsert : Bool) (nowMs m : Nat)
    (docs : List Obj) : List Obj × Nat × Nat :=
  let r := updateOneScan query update nowMs docs
  if r.2.1 == 0 && upsert then
    (r.1 ++ [upsertDoc query update (generateId (nowMs / 1000) m).asString nowMs], 1, 1)
  else r

/-- The mapping pass of Collection.updateMany: merge the update over every
matching document, incrementing matchedCount and modifiedCount together. -/
def updateManyScan (query update : Obj) (nowMs : Nat) :
    List Obj → List Obj × Nat × Nat
  | [] => ([], 0, 0)
  | d :: ds =>
    let r := updateManyScan query update nowMs ds
    if matchesFilter query d then
      (applyUpdate update nowMs d :: r.1, r.2.1 + 1, r.2.2 + 1)
    else (d :: r.1, r.2.1, r.2.2)

/-- Collection.updateMany: map the merge over every matching document;
when no document matched and options.upsert is set, append the
synthesized document and report both counts as 1. -/
def updateMany (query update : Obj) (upsert : Bool) (nowMs m : Nat)
    (docs : List Obj) : List Obj × Nat × Nat :=
  let r := updateManyScan query update nowMs docs
  if r.2.1 == 0 && upsert then
    (r.1 ++ [upsertDoc query update (generateId (nowMs / 1000) m).asString nowMs], 1, 1)
  else r

/-- Collection.deleteMany: keep exactly the documents that do not match
the query; the deleted count is the difference of lengths. -/
def deleteMany (query : Obj) (docs : List Obj) : List Obj × Nat :=
  let filtered := docs.filter fun d => !matchesFilter query d
  (filtered, docs.length - filtered.length)

/-- JavaScript String.prototype.startsWith on character lists. -/
def strStartsWith : List Char → List Char → Bool
  | _, [] => true
  | [], _ :: _ => false
  | c :: cs, p :: ps => c == p && strStartsWith cs ps

/-- JavaScript String.prototype.split with a one-character separator, on
character lists: split into the maximal separator-free runs, keeping
empty runs. -/
def jsSplit (c : Char) : List Char → List (List Char)
  | [] => [[]]
  | x :: xs =>
    let r := jsSplit c xs
    if x == c then [] :: r else (x :: r.headD []) :: r.tail

/-- JavaScript Array.prototype.join with a one-character separator, on
character lists. -/
def jsJoin (c : Char) : List (List Char) → List Char
  | [] => []
  | [p] => p
  | p :: q :: ps => p ++ c :: jsJoin c (q :: ps)

/-- The storage key of a collection opened through Database.collection:
the literal db underscore, the database name, an underscore, and the
collection name. -/
def collectionStorageKey (dbName name : List Char) : List Char :=
  "db_".toList ++ dbName ++ "_".toList ++ name

/-- Database.listCollections: keep the keys starting with the database
key namespace, split each on underscores, drop the first two parts and
join the rest back with underscores. -/
def listCollections (dbName : List Char) (keys : List (List Char)) :
    List (List Char) :=
  (keys.filter fun k =>
    strStartsWith k ("db_".toList ++ dbName ++ "_".toList)).map
    fun k => jsJoin '_' ((jsSplit '_' k).drop 2)

theorem getField_append (l1 l2 : Obj) (k : String) :
    getField (l1 ++ l2) k = (getField l1 k).or (getField l2 k) := by
  induction l1 with
  | nil => rfl
  | cons p rest ih =>
    obtain ⟨k1, v⟩ := p
    cases h : k1 == k with
    | true => simp [getField, h]
    | false => simp [getField, h, ih]

theorem getField_map_override (a b : Obj) (k : String) :
    getField (a.map fun p =>
      match getField b p.1 with
      | some v => (p.1, v)
      | none => p) k =
    (match getField a k with
    | some v => (getField b k).or (some v)
    | none => none) := by
  induction a with
  | nil => rfl
  | cons p rest ih =>
    obtain ⟨k1, v⟩ := p
    cases h : k1 == k with
    | true =>
      have hk : k1 = k := by simpa using h
      subst hk
      cases hb : getField b k1 with
      | none => simp [getField, h, hb]
      | some w => simp [getField, h, hb]
    | false =>
      cases hb : getField b k1 with
      | none => simp [getField, h, hb, ih]
      | some w => simp [getField, h, hb, ih]

theorem getField_filter_new (a b : Obj) (k : String) :
    getField (b.filter fun p => (getField a p.1).isNone) k =
    (match getField a k with
    | some _ => none
    | none => getField b k) := by
  induction b with
  | nil => cases h : getField a k <;> rfl
  | cons p rest ih =>
    obtain ⟨k1, v⟩ := p
    cases h : k1 == k with
    | true =>
      have hk : k1 = k := by simpa using h
      subst hk
      cases ha : getField a k1 with
      | none => simp [getField, List.filter, ha, h]
      | some w => simp [getField, List.filter, ha, h, ih]
    | false =>
      cases ha : getField a k1 with
      | none => simp [getField, List.filter, ha, h, ih]
      | some w => simp [getField, List.filter, ha, h, ih]

theorem getField_spread2 (a b : Obj) (k : String) :
    getField (spread2 a b) k = (getField b k).or (getField a k) := by
  unfold spread2
  rw [getField_append, getField_map_override, getField_filter_new]
  cases ha : getField a k <;> cases hb : getField b k <;> simp [Option.or]

theorem getField_applyUpdate_updatedAt (u : Obj) (n : Nat) (d : Obj) :
    getField (applyUpdate u n d) "updatedAt" = some (Value.date n) := by
  unfold applyUpdate
  rw [getField_spread2]
  rfl

theorem getField_applyUpdate_ne (u : Obj) (n : Nat) (d : Obj) (k : String)
    (hk : k ≠ "updatedAt") :
    getField (applyUpdate u n d) k = (getField u k).or (getField d k) := by
  unfold applyUpdate
  rw [getField_spread2, getField_spread2]
  have h1 : getField [("updatedAt", Value.date n)] k = none := by
    simp [getField, Ne.symm hk]
  rw [h1]
  cases hu : getField u k <;> simp [Option.or]

theorem matchesFilter_nil (d : Obj) : matchesFilter [] d = true := rfl

theorem find_eq_filter (q : Obj) (docs : List Obj) :
    find q none none none docs = docs.filter fun d => matchesFilter q d := by
  cases q with
  | nil => simp [find, matchesFilter]
  | cons p rest => simp [find]

theorem countDocuments_nil_query (docs : List Obj) :
    countDocuments [] docs = docs.length := by
  simp [countDocuments, find_eq_filter, matchesFilter]

theorem updateOneScan_no_match (q u : Obj) (n : Nat) (docs : List Obj)
    (h : (docs.all fun x => !matchesFilter q x) = true) :
    updateOneScan q u n docs = (docs, 0, 0) := by
  induction docs with
  | nil => rfl
  | cons d ds ih =>
    rw [List.all_cons, Bool.and_eq_true] at h
    obtain ⟨h1, h2⟩ := h
    rw [Bool.not_eq_true'] at h1
    simp [updateOneScan, h1, ih h2]

theorem updateOneScan_first_match (q u : Obj) (n : Nat) (pre post : List Obj)
    (d : Obj) (hpre : (pre.all fun x => !matchesFilter q x) = true)
    (hd : matchesFilter q d = true) :
    updateOneScan q u n (pre ++ d :: post) =
      (pre ++ applyUpdate u n d :: post, 1, 1) := by
  induction pre with
  | nil => simp [updateOneScan, hd]
  | cons e es ih =>
    rw [List.all_cons, Bool.and_eq_true] at hpre
    obtain ⟨h1, h2⟩ := hpre
    rw [Bool.not_eq_true'] at h1
    simp [updateOneScan, h1, ih h2]

theorem updateOneScan_length (q u : Obj) (n : Nat) (docs : List Obj) :
    (updateOneScan q u n docs).1.length = docs.length := by
  induction docs with
  | nil => rfl
  | cons d ds ih =>
    cases h : matchesFilter q d with
    | true => simp [updateOneScan, h]
    | false => simp [updateOneScan, h, ih]

theorem updateOneScan_getD (q u : Obj) (n : Nat) (docs : List Obj) (i : Nat) :
    (updateOneScan q u n docs).1.getD i [] = docs.getD i [] ∨
    (updateOneScan q u n docs).1.getD i [] = applyUpdate u n (docs.getD i []) := by
  induction docs generalizing i with
  | nil => left; rfl
  | cons d ds ih =>
    cases h : matchesFilter q d with
    | true =>
      cases i with
      | zero => right; simp [updateOneScan, h]
      | succ j => left; simp [updateOneScan, h]
    | false =>
      cases i with
      | zero => left; simp [updateOneScan, h]
      | succ j => simpa [updateOneScan, h] using ih j

theorem updateOneScan_counts (q u : Obj) (n : Nat) (docs : List Obj) :
    (updateOneScan q u n docs).2.1 = (updateOneScan q u n docs).2.2 := by
  induction docs with
  | nil => rfl
  | cons d ds ih =>
    cases h : matchesFilter q d with
    | true => simp [updateOneScan, h]
    | false => simp [updateOneScan, h, ih]

theorem updateManyScan_eq_map (q u : Obj) (n : Nat) (docs : List Obj) :
    (updateManyScan q u n docs).1 =
      docs.map fun d => if matchesFilter q d then applyUpdate u n d else d := by
  induction docs with
  | nil => rfl
  | cons d ds ih =>
    cases h : matchesFilter q d with
    | true => simp [updateManyScan, h, ih]
    | false => simp [updateManyScan, h, ih]

theorem updateManyScan_counts (q u : Obj) (n : Nat) (docs : List Obj) :
    (updateManyScan q u n docs).2.1 = (updateManyScan q u n docs).2.2 := by
  induction docs with
  | nil => rfl
  | cons d ds ih =>
    cases h : matchesFilter q d with
    | true => simp [updateManyScan, h, ih]
    | false => simp [updateManyScan, h, ih]

theorem updateManyScan_no_match (q u : Obj) (n : Nat) (docs : List Obj)
    (h : (docs.all fun x => !matchesFilter q x) = true) :
    updateManyScan q u n docs = (docs, 0, 0) := by
  induction docs with
  | nil => rfl
  | cons d ds ih =>
    rw [List.all_cons, Bool.and_eq_true] at h
    obtain ⟨h1, h2⟩ := h
    rw [Bool.not_eq_true'] at h1
    simp [updateManyScan, h1, ih h2]

theorem toDigitsCore_length_ge (b : Nat) :
    ∀ (fuel n : Nat) (ds : List Char),
      ds.length ≤ (Nat.toDigitsCore b fuel n ds).length := by
  intro fuel
  induction fuel with
  | zero => intro n ds; simp [Nat.toDigitsCore]
  | succ f ih =>
    intro n ds
    simp only [Nat.toDigitsCore]
    split
    · simp
    · calc ds.length ≤ (Nat.digitChar (n % b) :: ds).length := by simp
        _ ≤ _ := ih _ _

theorem toDigits_length_pos (b n : Nat) : 0 < (Nat.toDigits b n).length := by
  unfold Nat.toDigits
  simp only [Nat.toDigitsCore]
  split
  · simp
  · calc 0 < (Nat.digitChar (n % b) :: []).length := by simp
      _ ≤ _ := toDigitsCore_length_ge b n (n / b) _

theorem randSuffix_length_le (m : Nat) : (randSuffix m).length ≤ 12 := by
  unfold randSuffix jsSubstring
  rw [List.length_take]
  exact le_trans (min_le_left _ _) (by norm_num)

theorem jsSplit_ne_nil (c : Char) (l : List Char) : jsSplit c l ≠ [] := by
  cases l with
  | nil => simp [jsSplit]
  | cons x xs =>
    simp only [jsSplit]
    cases hx : x == c <;> simp

theorem jsJoin_jsSplit (c : Char) (l : List Char) : jsJoin c (jsSplit c l) = l := by
  induction l with
  | nil => rfl
  | cons x xs ih =>
    cases hr : jsSplit c xs with
    | nil => exact absurd hr (jsSplit_ne_nil c xs)
    | cons h t =>
      rw [hr] at ih
      cases hx : x == c with
      | true =>
        have hxc : x = c := by simpa using hx
        subst hxc
        simp only [jsSplit, hx, if_true, hr]
        simpa [jsJoin] using ih
      | false =>
        simp only [jsSplit, hx, Bool.false_eq_true, if_false, hr]
        cases t with
        | nil => simpa [jsJoin] using ih
        | cons t1 ts =>
          simp only [jsJoin, List.headD, List.tail] at ih ⊢
          rw [← ih]
          simp

theorem jsSplit_append_cons (c : Char) (l1 l2 : List Char)
    (h : (l1.all fun x => !(x == c)) = true) :
    jsSplit c (l1 ++ c :: l2) = l1 :: jsSplit c l2 := by
  induction l1 with
  | nil => simp [jsSplit]
  | cons x xs ih =>
    rw [List.all_cons, Bool.and_eq_true] at h
    obtain ⟨h1, h2⟩ := h
    rw [Bool.not_eq_true'] at h1
    simp [jsSplit, h1, ih h2]

theorem strStartsWith_append (p rest : List Char) :
    strStartsWith (p ++ rest) p = true := by
  induction p with
  | nil => cases rest <;> rfl
  | cons x xs ih => simp [strStartsWith, ih]

theorem mem_dropTrailingZeros {c : Char} {l : List Char}
    (h : c ∈ dropTrailingZeros l) : c ∈ l := by
  unfold dropTrailingZeros at h
  rw [List.mem_reverse] at h
  have h2 := (List.dropWhile_sublist _).subset h
  rwa [List.mem_reverse] at h2

theorem fullFracDigits_hex (m : Nat) :
    ∀ c ∈ fullFracDigits m, c ∈ "0123456789abcdef".toList := by
  intro c hc
  unfold fullFracDigits at hc
  rw [List.mem_map] at hc
  obtain ⟨i, _, rfl⟩ := hc
  have h16 : m / 16 ^ (12 - i) % 16 < 16 := Nat.mod_lt _ (by norm_num)
  have hall : ∀ x, x < 16 → Nat.digitChar x ∈ "0123456789abcdef".toList := by decide
  exact hall _ h16

theorem randSuffix_hexDigits (m : Nat) :
    ((randSuffix m).all fun c => "0123456789abcdef".toList.contains c) = true := by
  rw [List.all_eq_true]
  intro c hc
  unfold randSuffix jsSubstring at hc
  have hc2 := (List.take_sublist _ _).subset hc
  unfold randomHexChars at hc2
  cases hm : m == 0 with
  | true =>
    rw [hm] at hc2
    simp at hc2
  | false =>
    rw [hm] at hc2
    simp only [Bool.false_eq_true, if_false, List.drop_succ_cons, List.drop_zero] at hc2
    have := fullFracDigits_hex m c (mem_dropTrailingZeros hc2)
    simpa using this

theorem applyUpdate_preserves_id (u : Obj) (n : Nat) (x : Obj)
    (hu1 : getField u "_id" = none) :
    getField (applyUpdate u n x) "_id" = getField x "_id" := by
  rw [getField_applyUpdate_ne u n x "_id" (by decide), hu1]
  rfl

theorem applyUpdate_preserves_createdAt (u : Obj) (n : Nat) (x : Obj)
    (hu2 : getField u "createdAt" = none) :
    getField (applyUpdate u n x) "createdAt" = getField x "createdAt" := by
  rw [getField_applyUpdate_ne u n x "createdAt" (by decide), hu2]
  rfl

theorem updateOne_getD_lt (q u : Obj) (up : Bool) (nowMs m : Nat)
    (docs : List Obj) (i : Nat) (hi : i < docs.length) :
    (updateOne q u up nowMs m docs).1.getD i [] =
      (updateOneScan q u nowMs docs).1.getD i [] := by
  simp only [updateOne]
  split
  · exact List.getD_append _ _ _ _ (by rw [updateOneScan_length]; exact hi)
  · rfl

theorem updateManyScan_getD (q u : Obj) (n : Nat) (docs : List Obj) (i : Nat)
    (hi : i < docs.length) :
    (updateManyScan q u n docs).1.getD i [] = docs.getD i [] ∨
    (updateManyScan q u n docs).1.getD i [] = applyUpdate u n (docs.getD i []) := by
  rw [updateManyScan_eq_map]
  rw [List.getD_eq_getElem _ _ (by simpa using hi), List.getElem_map,
    List.getD_eq_getElem _ _ hi]
  cases h : matchesFilter q docs[i] with
  | true => right; simp [h]
  | false => left; simp [h]

theorem updateManyScan_length (q u : Obj) (n : Nat) (docs : List Obj) :
    (updateManyScan q u n docs).1.length = docs.length := by
  rw [updateManyScan_eq_map, List.length_map]

theorem updateMany_getD_lt (q u : Obj) (up : Bool) (nowMs m : Nat)
    (docs : List Obj) (i : Nat) (hi : i < docs.length) :
    (updateMany q u up nowMs m docs).1.getD i [] =
      (updateManyScan q u nowMs docs).1.getD i [] := by
  simp only [updateMany]
  split
  · exact List.getD_append _ _ _ _ (by rw [updateManyScan_length]; exact hi)
  · rfl

/-- C1: find returns exactly the stored documents in which every filter
field equals the filter value by strict equality, and the matching
predicate is nothing but this equality conjunction; documents left out
differ from the filter on some filter key. -/
theorem find_equality_conjunction_spec (q : Obj) (docs : List Obj) (d : Obj) :
    find q none none none docs = docs.filter (fun x => matchesFilter q x) ∧
    matchesFilter q d = (q.all fun kv => getField d kv.1 == some kv.2) ∧
    (d ∈ find q none none none docs ↔
      d ∈ docs ∧ (q.all fun kv => getField d kv.1 == some kv.2) = true) := by
  refine ⟨find_eq_filter q docs, rfl, ?_⟩
  rw [find_eq_filter]
  simp [List.mem_filter, matchesFilter]

/-- C1 witness at a concrete collection and filter. -/
theorem find_equality_conjunction_spec_witness :
    find [("s", Value.str "r")] none none none
      [[("s", Value.str "r"), ("t", Value.str "A")], [("s", Value.str "c")]] =
    List.filter (fun x => matchesFilter [("s", Value.str "r")] x)
      [[("s", Value.str "r"), ("t", Value.str "A")], [("s", Value.str "c")]] ∧
    matchesFilter [("s", Value.str "r")] [("s", Value.str "r"), ("t", Value.str "A")] =
      ([("s", Value.str "r")].all fun kv =>
        getField [("s", Value.str "r"), ("t", Value.str "A")] kv.1 == some kv.2) ∧
    ([("s", Value.str "r"), ("t", Value.str "A")] ∈
        find [("s", Value.str "r")] none none none
          [[("s", Value.str "r"), ("t", Value.str "A")], [("s", Value.str "c")]] ↔
      [("s", Value.str "r"), ("t", Value.str "A")] ∈
        [[("s", Value.str "r"), ("t", Value.str "A")], [("s", Value.str "c")]] ∧
      ([("s", Value.str "r")].all fun kv =>
        getField [("s", Value.str "r"), ("t", Value.str "A")] kv.1 == some kv.2) = true) :=
  find_equality_conjunction_spec [("s", Value.str "r")]
    [[("s", Value.str "r"), ("t", Value.str "A")], [("s", Value.str "c")]]
    [("s", Value.str "r"), ("t", Value.str "A")]

/-- C6: deleteMany keeps exactly the non-matching documents in their
original relative order, and the total count after the call is the total
count before minus the returned deleted count. -/
theorem deleteMany_spec (q : Obj) (docs : List Obj) (d : Obj) :
    (deleteMany q docs).1 = docs.filter (fun x => !matchesFilter q x) ∧
    (d ∈ (deleteMany q docs).1 ↔ d ∈ docs ∧ matchesFilter q d = false) ∧
    (deleteMany q docs).1.Sublist docs ∧
    countDocuments [] (deleteMany q docs).1 =
      countDocuments [] docs - (deleteMany q docs).2 ∧
    countDocuments [] docs =
      countDocuments [] (deleteMany q docs).1 + (deleteMany q docs).2 := by
  unfold deleteMany
  refine ⟨rfl, ?_, List.filter_sublist docs, ?_, ?_⟩
  · simp [List.mem_filter]
  · simp only [countDocuments_nil_query]
    exact (Nat.sub_sub_self (List.length_filter_le _ docs)).symm
  · simp only [countDocuments_nil_query]
    exact (Nat.add_sub_cancel' (List.length_filter_le _ docs)).symm

/-- C6 witness at a concrete collection and filter. -/
theorem deleteMany_spec_witness :
    (deleteMany [("s", Value.str "r")]
        [[("s", Value.str "r")], [("s", Value.str "c")], [("s", Value.str "r")]]).1 =
      List.filter (fun x => !matchesFilter [("s", Value.str "r")] x)
        [[("s", Value.str "r")], [("s", Value.str "c")], [("s", Value.str "r")]] ∧
    ([("s", Value.str "c")] ∈
        (deleteMany [("s", Value.str "r")]
          [[("s", Value.str "r")], [("s", Value.str "c")], [("s", Value.str "r")]]).1 ↔
      [("s", Value.str "c")] ∈
        [[("s", Value.str "r")], [("s", Value.str "c")], [("s", Value.str "r")]] ∧
      matchesFilter [("s", Value.str "r")] [("s", Value.str "c")] = false) ∧
    (deleteMany [("s", Value.str "r")]
        [[("s", Value.str "r")], [("s", Value.str "c")], [("s", Value.str "r")]]).1.Sublist
      [[("s", Value.str "r")], [("s", Value.str "c")], [("s", Value.str "r")]] ∧
    countDocuments []
        (deleteMany [("s", Value.str "r")]
          [[("s", Value.str "r")], [("s", Value.str "c")], [("s", Value.str "r")]]).1 =
      countDocuments [] [[("s", Value.str "r")], [("s", Value.str "c")], [("s", Value.str "r")]] -
        (deleteMany [("s", Value.str "r")]
          [[("s", Value.str "r")], [("s", Value.str "c")], [("s", Value.str "r")]]).2 ∧
    countDocuments [] [[("s", Value.str "r")], [("s", Value.str "c")], [("s", Value.str "r")]] =
      countDocuments []
          (deleteMany [("s", Value.str "r")]
            [[("s", Value.str "r")], [("s", Value.str "c")], [("s", Value.str "r")]]).1 +
        (deleteMany [("s", Value.str "r")]
          [[("s", Value.str "r")], [("s", Value.str "c")], [("s", Value.str "r")]]).2 :=
  deleteMany_spec [("s", Value.str "r")]
    [[("s", Value.str "r")], [("s", Value.str "c")], [("s", Value.str "r")]]
    [("s", Value.str "c")]

/-- C4: insertOne returns the caller document stamped with a non-empty
generated id and equal creation and update timestamps, and the persisted
collection is the prior collection with exactly the returned document
appended at the end. -/
theorem insertOne_spec (dc : Obj) (docs : List Obj) (nowMs m : Nat) (k : String)
    (h1 : k ≠ "_id") (h2 : k ≠ "createdAt") (h3 : k ≠ "updatedAt") :
    getField (insertOne dc nowMs m docs).1 k = getField dc k ∧
    getField (insertOne dc nowMs m docs).1 "_id" =
      some (Value.str (generateId (nowMs / 1000) m).asString) ∧
    0 < (generateId (nowMs / 1000) m).asString.length ∧
    getField (insertOne dc nowMs m docs).1 "createdAt" =
      getField (insertOne dc nowMs m docs).1 "updatedAt" ∧
    getField (insertOne dc nowMs m docs).1 "createdAt" = some (Value.date nowMs) ∧
    (insertOne dc nowMs m docs).2 = docs ++ [(insertOne dc nowMs m docs).1] := by
  unfold insertOne
  refine ⟨?_, ?_, ?_, ?_, ?_, rfl⟩
  · rw [getField_spread2]
    have hz : getField
        [("_id", Value.str (generateId (nowMs / 1000) m).asString),
         ("createdAt", Value.date nowMs), ("updatedAt", Value.date nowMs)] k = none := by
      simp [getField, Ne.symm h1, Ne.symm h2, Ne.symm h3]
    rw [hz]
    rfl
  · rw [getField_spread2]
    rfl
  · rw [List.length_asString]
    unfold generateId
    rw [List.length_append]
    exact Nat.lt_of_lt_of_le (toDigits_length_pos 16 (nowMs / 1000)) (Nat.le_add_right _ _)
  · rw [getField_spread2, getField_spread2]
    rfl
  · rw [getField_spread2]
    rfl

/-- C4 witness at a concrete document, time and random value. -/
theorem insertOne_spec_witness :
    getField (insertOne [("t", Value.str "A")] 5000 1 []).1 "t" =
      getField [("t", Value.str "A")] "t" ∧
    getField (insertOne [("t", Value.str "A")] 5000 1 []).1 "_id" =
      some (Value.str (generateId (5000 / 1000) 1).asString) ∧
    0 < (generateId (5000 / 1000) 1).asString.length ∧
    getField (insertOne [("t", Value.str "A")] 5000 1 []).1 "createdAt" =
      getField (insertOne [("t", Value.str "A")] 5000 1 []).1 "updatedAt" ∧
    getField (insertOne [("t", Value.str "A")] 5000 1 []).1 "createdAt" =
      some (Value.date 5000) ∧
    (insertOne [("t", Value.str "A")] 5000 1 []).2 =
      [] ++ [(insertOne [("t", Value.str "A")] 5000 1 []).1] :=
  insertOne_spec [("t", Value.str "A")] [] 5000 1 "t"
    (by decide) (by decide) (by decide)

/-- C2: updateOne without upsert leaves the collection and the counts
untouched when nothing matches, and otherwise rewrites exactly the first
matching document to the merge of the patch over it with a refreshed
updatedAt, leaving every earlier and later document unchanged and
returning both counts as 1. -/
theorem updateOne_first_match_spec (q u : Obj) (nowMs m : Nat)
    (docs pre post : List Obj) (d : Obj) (k : String) (hk : k ≠ "updatedAt") :
    ((docs.all fun x => !matchesFilter q x) = true →
      updateOne q u false nowMs m docs = (docs, 0, 0)) ∧
    ((docs = pre ++ d :: post ∧ (pre.all fun x => !matchesFilter q x) = true ∧
        matchesFilter q d = true) →
      updateOne q u false nowMs m docs =
        (pre ++ applyUpdate u nowMs d :: post, 1, 1)) ∧
    getField (applyUpdate u nowMs d) "updatedAt" = some (Value.date nowMs) ∧
    getField (applyUpdate u nowMs d) k = (getField u k).or (getField d k) := by
  refine ⟨?_, ?_, getField_applyUpdate_updatedAt u nowMs d,
    getField_applyUpdate_ne u nowMs d k hk⟩
  · intro h
    simp only [updateOne, updateOneScan_no_match q u nowMs docs h]
    rfl
  · rintro ⟨hsplit, hpre, hd⟩
    subst hsplit
    simp only [updateOne, updateOneScan_first_match q u nowMs pre post d hpre hd]
    rfl

/-- C2 witness: a three-document collection whose middle document is the
first match; the third also matches but is left unchanged. -/
theorem updateOne_first_match_spec_witness :
    (([[("s", Value.str "c")], [("s", Value.str "r")], [("s", Value.str "r")]].all
        fun x => !matchesFilter [("s", Value.str "r")] x) = true →
      updateOne [("s", Value.str "r")] [("p", Value.num 7)] false 9000 1
        [[("s", Value.str "c")], [("s", Value.str "r")], [("s", Value.str "r")]] =
        ([[("s", Value.str "c")], [("s", Value.str "r")], [("s", Value.str "r")]], 0, 0)) ∧
    (([[("s", Value.str "c")], [("s", Value.str "r")], [("s", Value.str "r")]] =
        [[("s", Value.str "c")]] ++ [("s", Value.str "r")] :: [[("s", Value.str "r")]] ∧
      ([[("s", Value.str "c")]].all fun x => !matchesFilter [("s", Value.str "r")] x) = true ∧
        matchesFilter [("s", Value.str "r")] [("s", Value.str "r")] = true) →
      updateOne [("s", Value.str "r")] [("p", Value.num 7)] false 9000 1
        [[("s", Value.str "c")], [("s", Value.str "r")], [("s", Value.str "r")]] =
        ([[("s", Value.str "c")]] ++
          applyUpdate [("p", Value.num 7)] 9000 [("s", Value.str "r")] ::
            [[("s", Value.str "r")]], 1, 1)) ∧
    getField (applyUpdate [("p", Value.num 7)] 9000 [("s", Value.str "r")]) "updatedAt" =
      some (Value.date 9000) ∧
    getField (applyUpdate [("p", Value.num 7)] 9000 [("s", Value.str "r")]) "p" =
      (getField [("p", Value.num 7)] "p").or (getField [("s", Value.str "r")] "p") :=
  updateOne_first_match_spec [("s", Value.str "r")] [("p", Value.num 7)] 9000 1
    [[("s", Value.str "c")], [("s", Value.str "r")], [("s", Value.str "r")]]
    [[("s", Value.str "c")]] [[("s", Value.str "r")]] [("s", Value.str "r")] "p"
    (by decide)

/-- C3: when the filter matches no document and upsert is set, updateOne
appends exactly one synthesized document, whose fields outside the stamp
are the union of filter and patch fields with the patch taking precedence,
stamped with the fresh generated id and fresh equal timestamps; the total
count grows by one and both returned counts are 1. -/
theorem updateOne_upsert_spec (q u : Obj) (nowMs m : Nat) (docs : List Obj)
    (k : String) (hnm : (docs.all fun x => !matchesFilter q x) = true)
    (h1 : k ≠ "_id") (h2 : k ≠ "createdAt") (h3 : k ≠ "updatedAt") :
    (updateOne q u true nowMs m docs).1 =
      docs ++ [upsertDoc q u (generateId (nowMs / 1000) m).asString nowMs] ∧
    countDocuments [] (updateOne q u true nowMs m docs).1 =
      countDocuments [] docs + 1 ∧
    (updateOne q u true nowMs m docs).2 = (1, 1) ∧
    getField (upsertDoc q u (generateId (nowMs / 1000) m).asString nowMs) k =
      (getField u k).or (getField q k) ∧
    getField (upsertDoc q u (generateId (nowMs / 1000) m).asString nowMs) "_id" =
      some (Value.str (generateId (nowMs / 1000) m).asString) ∧
    getField (upsertDoc q u (generateId (nowMs / 1000) m).asString nowMs) "createdAt" =
      some (Value.date nowMs) ∧
    getField (upsertDoc q u (generateId (nowMs / 1000) m).asString nowMs) "updatedAt" =
      some (Value.date nowMs) := by
  have hres : updateOne q u true nowMs m docs =
      (docs ++ [upsertDoc q u (generateId (nowMs / 1000) m).asString nowMs], 1, 1) := by
    simp only [updateOne, updateOneScan_no_match q u nowMs docs hnm]
    rfl
  rw [hres]
  refine ⟨rfl, ?_, rfl, ?_, ?_, ?_, ?_⟩
  · simp [countDocuments_nil_query]
  · unfold upsertDoc
    rw [getField_spread2, getField_spread2]
    have hz : getField
        [("_id", Value.str (generateId (nowMs / 1000) m).asString),
         ("createdAt", Value.date nowMs), ("updatedAt", Value.date nowMs)] k = none := by
      simp [getField, Ne.symm h1, Ne.symm h2, Ne.symm h3]
    rw [hz]
    cases hu : getField u k <;> simp [Option.or]
  · unfold upsertDoc
    rw [getField_spread2]
    rfl
  · unfold upsertDoc
    rw [getField_spread2]
    rfl
  · unfold upsertDoc
    rw [getField_spread2]
    rfl

/-- C3 witness: an upsert into a collection with one non-matching
document. -/
theorem updateOne_upsert_spec_witness :
    (updateOne [("s", Value.str "x")] [("p", Value.num 2)] true 5000 1
        [[("s", Value.str "c")]]).1 =
      [[("s", Value.str "c")]] ++
        [upsertDoc [("s", Value.str "x")] [("p", Value.num 2)]
          (generateId (5000 / 1000) 1).asString 5000] ∧
    countDocuments []
        (updateOne [("s", Value.str "x")] [("p", Value.num 2)] true 5000 1
          [[("s", Value.str "c")]]).1 =
      countDocuments [] [[("s", Value.str "c")]] + 1 ∧
    (updateOne [("s", Value.str "x")] [("p", Value.num 2)] true 5000 1
        [[("s", Value.str "c")]]).2 = (1, 1) ∧
    getField (upsertDoc [("s", Value.str "x")] [("p", Value.num 2)]
        (generateId (5000 / 1000) 1).asString 5000) "s" =
      (getField [("p", Value.num 2)] "s").or (getField [("s", Value.str "x")] "s") ∧
    getField (upsertDoc [("s", Value.str "x")] [("p", Value.num 2)]
        (generateId (5000 / 1000) 1).asString 5000) "_id" =
      some (Value.str (generateId (5000 / 1000) 1).asString) ∧
    getField (upsertDoc [("s", Value.str "x")] [("p", Value.num 2)]
        (generateId (5000 / 1000) 1).asString 5000) "createdAt" =
      some (Value.date 5000) ∧
    getField (upsertDoc [("s", Value.str "x")] [("p", Value.num 2)]
        (generateId (5000 / 1000) 1).asString 5000) "updatedAt" =
      some (Value.date 5000) :=
  updateOne_upsert_spec [("s", Value.str "x")] [("p", Value.num 2)] 5000 1
    [[("s", Value.str "c")]] "s" (by decide) (by decide) (by decide) (by decide)

/-- C7: updateOne and updateMany never change the id or creation
timestamp of a document already in the collection, for any filter, any
options and any patch; a patch cannot carry those two fields, as its
TypeScript type omits them. -/
theorem update_preserves_id_createdAt (q u : Obj) (up1 up2 : Bool)
    (nowMs m : Nat) (docs : List Obj) (i : Nat)
    (hu1 : getField u "_id" = none) (hu2 : getField u "createdAt" = none)
    (hi : i < docs.length) :
    getField ((updateOne q u up1 nowMs m docs).1.getD i []) "_id" =
      getField (docs.getD i []) "_id" ∧
    getField ((updateOne q u up1 nowMs m docs).1.getD i []) "createdAt" =
      getField (docs.getD i []) "createdAt" ∧
    getField ((updateMany q u up2 nowMs m docs).1.getD i []) "_id" =
      getField (docs.getD i []) "_id" ∧
    getField ((updateMany q u up2 nowMs m docs).1.getD i []) "createdAt" =
      getField (docs.getD i []) "createdAt" := by
  rw [updateOne_getD_lt q u up1 nowMs m docs i hi,
    updateMany_getD_lt q u up2 nowMs m docs i hi]
  rcases updateOneScan_getD q u nowMs docs i with h | h <;>
    rcases updateManyScan_getD q u nowMs docs i hi with h2 | h2 <;>
    rw [h, h2] <;>
    refine ⟨?_, ?_, ?_, ?_⟩ <;>
    first
      | rfl
      | exact applyUpdate_preserves_id u nowMs _ hu1
      | exact applyUpdate_preserves_createdAt u nowMs _ hu2

/-- C7 witness: an update with a matching filter over a two-document
collection, inspected at the matched position. -/
theorem update_preserves_id_createdAt_witness :
    getField ((updateOne [("s", Value.str "r")] [("s", Value.str "d")] false 9000 1
        [[("_id", Value.str "a1"), ("createdAt", Value.date 1), ("s", Value.str "r")],
         [("_id", Value.str "a2"), ("createdAt", Value.date 2), ("s", Value.str "c")]]).1.getD 0 [])
        "_id" =
      getField ([[("_id", Value.str "a1"), ("createdAt", Value.date 1), ("s", Value.str "r")],
         [("_id", Value.str "a2"), ("createdAt", Value.date 2), ("s", Value.str "c")]].getD 0 [])
        "_id" ∧
    getField ((updateOne [("s", Value.str "r")] [("s", Value.str "d")] false 9000 1
        [[("_id", Value.str "a1"), ("createdAt", Value.date 1), ("s", Value.str "r")],
         [("_id", Value.str "a2"), ("createdAt", Value.date 2), ("s", Value.str "c")]]).1.getD 0 [])
        "createdAt" =
      getField ([[("_id", Value.str "a1"), ("createdAt", Value.date 1), ("s", Value.str "r")],
         [("_id", Value.str "a2"), ("createdAt", Value.date 2), ("s", Value.str "c")]].getD 0 [])
        "createdAt" ∧
    getField ((updateMany [("s", Value.str "r")] [("s", Value.str "d")] true 9000 1
        [[("_id", Value.str "a1"), ("createdAt", Value.date 1), ("s", Value.str "r")],
         [("_id", Value.str "a2"), ("createdAt", Value.date 2), ("s", Value.str "c")]]).1.getD 0 [])
        "_id" =
      getField ([[("_id", Value.str "a1"), ("createdAt", Value.date 1), ("s", Value.str "r")],
         [("_id", Value.str "a2"), ("createdAt", Value.date 2), ("s", Value.str "c")]].getD 0 [])
        "_id" ∧
    getField ((updateMany [("s", Value.str "r")] [("s", Value.str "d")] true 9000 1
        [[("_id", Value.str "a1"), ("createdAt", Value.date 1), ("s", Value.str "r")],
         [("_id", Value.str "a2"), ("createdAt", Value.date 2), ("s", Value.str "c")]]).1.getD 0 [])
        "createdAt" =
      getField ([[("_id", Value.str "a1"), ("createdAt", Value.date 1), ("s", Value.str "r")],
         [("_id", Value.str "a2"), ("createdAt", Value.date 2), ("s", Value.str "c")]].getD 0 [])
        "createdAt" :=
  update_preserves_id_createdAt [("s", Value.str "r")] [("s", Value.str "d")] false true 9000 1
    [[("_id", Value.str "a1"), ("createdAt", Value.date 1), ("s", Value.str "r")],
     [("_id", Value.str "a2"), ("createdAt", Value.date 2), ("s", Value.str "c")]] 0
    (by decide) (by decide) (by decide)

/-- C10: updateOne and updateMany always report matchedCount equal to
modifiedCount, since the source increments or assigns the two counters
only together, counting every matched document as modified; on an upsert
both operations report the pair 1 and 1. -/
theorem update_counts_spec (q u : Obj) (up : Bool) (nowMs m : Nat)
    (docs : List Obj) :
    (updateOne q u up nowMs m docs).2.1 = (updateOne q u up nowMs m docs).2.2 ∧
    (updateMany q u up nowMs m docs).2.1 = (updateMany q u up nowMs m docs).2.2 ∧
    (((docs.all fun x => !matchesFilter q x) = true ∧ up = true) →
      (updateOne q u up nowMs m docs).2 = (1, 1) ∧
      (updateMany q u up nowMs m docs).2 = (1, 1)) := by
  refine ⟨?_, ?_, ?_⟩
  · simp only [updateOne]
    split
    · rfl
    · exact updateOneScan_counts q u nowMs docs
  · simp only [updateMany]
    split
    · rfl
    · exact updateManyScan_counts q u nowMs docs
  · rintro ⟨hnm, hup⟩
    subst hup
    constructor
    · simp only [updateOne, updateOneScan_no_match q u nowMs docs hnm]
      rfl
    · simp only [updateMany, updateManyScan_no_match q u nowMs docs hnm]
      rfl

/-- C10 witness: an upserting update over a collection with one
non-matching document, where the counts agree and equal 1. -/
theorem update_counts_spec_witness :
    (updateOne [("s", Value.str "x")] [("p", Value.num 2)] true 5000 1
        [[("s", Value.str "c")]]).2.1 =
      (updateOne [("s", Value.str "x")] [("p", Value.num 2)] true 5000 1
        [[("s", Value.str "c")]]).2.2 ∧
    (updateMany [("s", Value.str "x")] [("p", Value.num 2)] true 5000 1
        [[("s", Value.str "c")]]).2.1 =
      (updateMany [("s", Value.str "x")] [("p", Value.num 2)] true 5000 1
        [[("s", Value.str "c")]]).2.2 ∧
    ((([[("s", Value.str "c")]].all
        fun x => !matchesFilter [("s", Value.str "x")] x) = true ∧ true = true) →
      (updateOne [("s", Value.str "x")] [("p", Value.num 2)] true 5000 1
        [[("s", Value.str "c")]]).2 = (1, 1) ∧
      (updateMany [("s", Value.str "x")] [("p", Value.num 2)] true 5000 1
        [[("s", Value.str "c")]]).2 = (1, 1)) :=
  update_counts_spec [("s", Value.str "x")] [("p", Value.num 2)] true 5000 1
    [[("s", Value.str "c")]]

/-- C5 counterexample: with a limit of 0 the engine returns every
document instead of the empty first-0 segment, because a 0 option value
is falsy and the limit slice is skipped. -/
theorem find_limit_zero_cex :
    ¬ (find [] none none (some 0) [[("a", Value.num 1)]] =
       List.take 0 (find [] none none none [[("a", Value.num 1)]])) := by decide

/-- C5 amended: skip drops the first N results after sorting for every
non-negative N, and a limit of M truncates to the first M results after
skip for every positive M, while a limit of 0 is treated as no limit; the
concrete skip-2 limit-2 composition over 5 documents sorted ascending by
an index field returns the documents at 1-indexed sorted positions 3 and
4. -/
theorem find_skip_limit_spec (q : Obj) (s : Option (List (String × Int)))
    (skipN limitM : Nat) (docs : List Obj) (hM : 1 ≤ limitM) :
    find q s (some skipN) (some limitM) docs =
      ((find q s none none docs).drop skipN).take limitM ∧
    find q s (some skipN) none docs = (find q s none none docs).drop skipN ∧
    find [] (some [("idx", 1)]) (some 2) (some 2)
      [[("idx", Value.num 5)], [("idx", Value.num 3)], [("idx", Value.num 1)],
       [("idx", Value.num 4)], [("idx", Value.num 2)]] =
      [[("idx", Value.num 3)], [("idx", Value.num 4)]] := by
  have hM0 : (limitM != 0) = true := by
    simp [Nat.pos_iff_ne_zero.mp hM]
  refine ⟨?_, ?_, by decide⟩
  · simp only [find, hM0, if_true]
    cases hN : skipN != 0 with
    | true => simp [hN]
    | false =>
      have h0 : skipN = 0 := by simpa using hN
      subst h0
      simp
  · simp only [find]
    cases hN : skipN != 0 with
    | true => simp [hN]
    | false =>
      have h0 : skipN = 0 := by simpa using hN
      subst h0
      simp

/-- C5 witness at concrete skip and limit values on a two-document
collection. -/
theorem find_skip_limit_spec_witness :
    find [] none (some 1) (some 1)
        [[("a", Value.num 1)], [("a", Value.num 2)], [("a", Value.num 3)]] =
      ((find [] none none none
        [[("a", Value.num 1)], [("a", Value.num 2)], [("a", Value.num 3)]]).drop 1).take 1 ∧
    find [] none (some 1) none
        [[("a", Value.num 1)], [("a", Value.num 2)], [("a", Value.num 3)]] =
      (find [] none none none
        [[("a", Value.num 1)], [("a", Value.num 2)], [("a", Value.num 3)]]).drop 1 ∧
    find [] (some [("idx", 1)]) (some 2) (some 2)
      [[("idx", Value.num 5)], [("idx", Value.num 3)], [("idx", Value.num 1)],
       [("idx", Value.num 4)], [("idx", Value.num 2)]] =
      [[("idx", Value.num 3)], [("idx", Value.num 4)]] :=
  find_skip_limit_spec [] none 1 1
    [[("a", Value.num 1)], [("a", Value.num 2)], [("a", Value.num 3)]] (by decide)

/-- C8 counterexample: for the database name containing an underscore,
the listed name is not the key with the prefix stripped; the engine drops
the first two underscore-separated segments instead, so the key of
collection c under database a underscore b is listed as b underscore c. -/
theorem listCollections_underscore_cex :
    listCollections "a_b".toList ["db_a_b_c".toList] = ["b_c".toList] ∧
    ¬ (listCollections "a_b".toList ["db_a_b_c".toList] = ["c".toList]) := by decide

/-- C8 amended: for every database name containing no underscore, each
stored key formed of the database namespace followed by a collection name
is mapped back to exactly that collection name, and the name of every
collection whose storage key is present is listed. -/
theorem listCollections_spec (dbName name : List Char) (keys : List (List Char))
    (hdb : (dbName.all fun c => !(c == '_')) = true)
    (hmem : ("db_".toList ++ dbName ++ "_".toList ++ name) ∈ keys) :
    jsJoin '_' ((jsSplit '_' ("db_".toList ++ dbName ++ "_".toList ++ name)).drop 2) =
      name ∧
    name ∈ listCollections dbName keys := by
  have hkey : "db_".toList ++ dbName ++ "_".toList ++ name =
      ['d', 'b'] ++ '_' :: (dbName ++ '_' :: name) := by
    simp
  have hsplit : jsSplit '_' ("db_".toList ++ dbName ++ "_".toList ++ name) =
      ['d', 'b'] :: dbName :: jsSplit '_' name := by
    rw [hkey, jsSplit_append_cons '_' ['d', 'b'] _ (by decide),
      jsSplit_append_cons '_' dbName name hdb]
  have hstrip : jsJoin '_'
      ((jsSplit '_' ("db_".toList ++ dbName ++ "_".toList ++ name)).drop 2) = name := by
    rw [hsplit]
    simpa using jsJoin_jsSplit '_' name
  refine ⟨hstrip, ?_⟩
  unfold listCollections
  rw [List.mem_map]
  refine ⟨"db_".toList ++ dbName ++ "_".toList ++ name, List.mem_filter.mpr ⟨hmem, ?_⟩, hstrip⟩
  have hassoc : "db_".toList ++ dbName ++ "_".toList ++ name =
      ("db_".toList ++ dbName ++ "_".toList) ++ name := by
    simp
  rw [hassoc]
  exact strStartsWith_append _ _

/-- C8 witness: the default database name with one stored collection
key. -/
theorem listCollections_spec_witness :
    jsJoin '_'
      ((jsSplit '_' ("db_".toList ++ "bookvault".toList ++ "_".toList ++ "books".toList)).drop 2) =
      "books".toList ∧
    "books".toList ∈ listCollections "bookvault".toList
      [("db_".toList ++ "bookvault".toList ++ "_".toList ++ "books".toList)] :=
  listCollections_spec "bookvault".toList "books".toList
    [("db_".toList ++ "bookvault".toList ++ "_".toList ++ "books".toList)]
    (by decide) (by decide)

/-- C9 counterexample: two random inputs whose generated identifiers have
random suffixes of different lengths, 1 and 12, refuting the fixed-length
suffix; the conversion of one half prints a single hex digit 8, while a
full-precision fraction fills all 12 substring positions. -/
theorem generateId_not_fixed_length_cex :
    (randSuffix (8 * 16 ^ 12)).length = 1 ∧
    (randSuffix 1).length = 12 ∧
    ¬ ((randSuffix (8 * 16 ^ 12)).length = (randSuffix 1).length) ∧
    ¬ ((generateId 5 (8 * 16 ^ 12)).length = (generateId 5 1).length) := by decide

/-- C9 amended: every generated identifier is the radix-16 rendering of
the time at one-second granularity, which is never empty, concatenated
with a suffix of at most 12 hexadecimal digits of the random value; the
suffix length is not fixed, since the radix-16 conversion trims trailing
zeros. -/
theorem generateId_structure_spec (sec m : Nat) :
    generateId sec m = Nat.toDigits 16 sec ++ randSuffix m ∧
    0 < (Nat.toDigits 16 sec).length ∧
    (randSuffix m).length ≤ 12 ∧
    ((randSuffix m).all fun c => "0123456789abcdef".toList.contains c) = true :=
  ⟨rfl, toDigits_length_pos 16 sec, randSuffix_length_le m, randSuffix_hexDigits m⟩
